import Mathlib

/-!
Shallow embedding of `symposium-crate-sources-proxy`, centred on
`src/symposium-crate-sources-proxy/src/research_agent.rs` (`run`): the
research-session orchestrator that creates a child session, registers it in
the shared `ResearchState`, races the prompt request against the side-channel
collector, aggregates the collected responses and replies to the caller.
-/

namespace Symposium

/-! ## JSON values (`serde_json::Value`)

`serde_json::Value` restricted to integer numbers (the orchestrator never
inspects or produces floating-point payloads; numbers only flow through
opaquely).  Arrays and objects are given by mutually inductive list types so
that the serializer below is structurally recursive and computes by `rfl`.
Object fields are kept in the map's iteration order. -/

mutual

inductive Json where
  | null : Json
  | bool (b : Bool) : Json
  | num (n : Int) : Json
  | str (s : String) : Json
  | arr (elems : JsonArr) : Json
  | obj (fields : JsonObj) : Json

inductive JsonArr where
  | nil : JsonArr
  | cons (head : Json) (tail : JsonArr) : JsonArr

inductive JsonObj where
  | nil : JsonObj
  | cons (key : String) (val : Json) (tail : JsonObj) : JsonObj

end

/-- Convert a Lean list of values into a `JsonArr` (the embedding of
`Vec<Value>`). -/
def JsonArr.ofList : List Json → JsonArr
  | [] => .nil
  | x :: xs => .cons x (JsonArr.ofList xs)

/-- Whether the array is empty. -/
def JsonArr.isNil : JsonArr → Bool
  | .nil => true
  | .cons _ _ => false

/-- Whether the object has no fields. -/
def JsonObj.isNil : JsonObj → Bool
  | .nil => true
  | .cons _ _ _ => false

/-- Lowercase hexadecimal digit, as in `serde_json`'s escape table. -/
def hexDigit (n : Nat) : Char :=
  if n < 10 then Char.ofNat (48 + n) else Char.ofNat (87 + n)

/-- Escape one character the way `serde_json` escapes string contents:
quote and backslash get a backslash, the named control characters use their
short escapes, the remaining control characters use a `\u00XX` escape, and
everything else is emitted verbatim. -/
def escapeChar (c : Char) : String :=
  if c = Char.ofNat 34 then "\\\""
  else if c = Char.ofNat 92 then "\\\\"
  else if c = Char.ofNat 8 then "\\b"
  else if c = Char.ofNat 9 then "\\t"
  else if c = Char.ofNat 10 then "\\n"
  else if c = Char.ofNat 12 then "\\f"
  else if c = Char.ofNat 13 then "\\r"
  else if c.toNat < 32 then
    "\\u00" ++ String.mk [hexDigit (c.toNat / 16), hexDigit (c.toNat % 16)]
  else String.mk [c]

/-- A JSON string literal: quoted, with `serde_json` escaping. -/
def escapeString (s : String) : String :=
  "\"" ++ String.join (s.toList.map escapeChar) ++ "\""

/-- Indentation emitted by `serde_json::ser::PrettyFormatter`: two spaces per
nesting level. -/
def indentStr (level : Nat) : String :=
  String.mk (List.replicate (2 * level) (Char.ofNat 32))

mutual

/-- `serde_json::to_string_pretty` on a value, at a given nesting level:
scalars inline; a non-empty array (object) opens the bracket, puts every
element (field) on its own line indented one level deeper, separates them
with commas and closes the bracket at the current level; empty collections
print as `[]` and `\x7b\x7d`. -/
def render (level : Nat) : Json → String
  | .null => "null"
  | .bool true => "true"
  | .bool false => "false"
  | .num n => toString n
  | .str s => escapeString s
  | .arr elems =>
      if elems.isNil then "[]"
      else
        "[\n" ++ String.intercalate ",\n" (renderArrItems (level + 1) elems) ++
          "\n" ++ indentStr level ++ "]"
  | .obj fields =>
      if fields.isNil then "\x7b\x7d"
      else
        "\x7b\n" ++ String.intercalate ",\n" (renderObjItems (level + 1) fields) ++
          "\n" ++ indentStr level ++ "\x7d"

/-- The array's elements, each rendered on its own indented line. -/
def renderArrItems (level : Nat) : JsonArr → List String
  | .nil => []
  | .cons x xs => (indentStr level ++ render level x) :: renderArrItems level xs

/-- The object's fields, each rendered as an indented `"key": value` line
(the pretty formatter writes a space after the colon). -/
def renderObjItems (level : Nat) : JsonObj → List String
  | .nil => []
  | .cons k v fs =>
      (indentStr level ++ escapeString k ++ ": " ++ render level v) ::
        renderObjItems level fs

end

/-- `serde_json::to_string_pretty(&value)`.  For `serde_json::Value` this
serialization is infallible (`Value` keys are strings and its `Serialize`
impl never errors when writing to a string), so the
`unwrap_or_else(debug-format)` fallback in `research_agent.rs` is
unreachable and the embedding is total. -/
def toStringPretty (j : Json) : String :=
  render 0 j

/-! ## Protocol-level data (`sacp::schema`, as used by `research_agent.rs`) -/

/-- Session identifiers assigned by the agent (`session_id` in
`NewSessionResponse`), opaque strings. -/
abbrev SessionId := String

/-- `sacp::Error` as the orchestrator distinguishes it: the only constructor
`run` itself builds is `sacp::Error::internal_error()`; every other error
value flows through opaquely. -/
inductive SacpError where
  | internalError : SacpError
  | other (msg : String) : SacpError
deriving DecidableEq, Repr

/-- The terminal stop reason carried by a completed `PromptResponse`
(`sacp::schema::StopReason`): the normal end-of-turn case plus the abnormal
terminations. -/
inductive StopReason where
  | endTurn : StopReason
  | maxTokens : StopReason
  | maxTurnRequests : StopReason
  | refusal : StopReason
  | cancelled : StopReason
deriving DecidableEq, Repr

/-- The observable content of the `NewSessionRequest` built by
`research_agent_session_request`: the working directory obtained from
`std::env::current_dir()`, and the names of the MCP servers the fresh
registry contributes via `add_registered_mcp_servers_to` (exactly the one
server registered with `with_rmcp_server("rust-crate-sources", ..)`). -/
structure NewSessionRequest where
  cwd : String
  mcpServers : List String
deriving DecidableEq, Repr

/-- The `PromptRequest` sent by `run`: the fresh session id and the single
content block built from the request's prompt text
(`vec![request.prompt.clone().into()]`). -/
structure PromptRequest where
  session_id : SessionId
  prompt : List String
deriving DecidableEq, Repr

/-- `crate_research_mcp::ResearchRequest` as consumed by `run`: the crate
name (line 38 and the aggregation sentinel), the optional crate version
(read only by the opening `tracing::info!`), and the prompt text.  The
one-shot reply sender `response_tx` is represented by the environment's
`replyOpen` flag together with the `Action.reply` events below. -/
structure ResearchRequest where
  crate_name : String
  crate_version : Option String
  prompt : String

/-! ## The execution environment of one call to `run`

`run` interacts with the outside world at a fixed set of points: building
the rmcp service registry, resolving the current directory, awaiting the
session-creation response, racing the side-channel receiver against the
spawned prompt task in `tokio::select!`, and sending on the caller's
one-shot reply channel.  An `Env` fixes the outcome of each interaction,
i.e. one resolved schedule of the concurrent execution:

* `received` are the side-channel values the select loop's `recv` branch
  delivered (pushed onto `responses`, in order) before the prompt branch
  fired;
* `queued` are the values that had already been delivered into the
  collector channel but were still queued, unreceived, at the instant the
  prompt branch fired and the loop broke — `tokio::select!` chooses among
  ready branches, so any split of the delivered values into
  `received ++ queued` is a possible schedule;
* `promptJoin` is the prompt task's outcome: `.error ()` is a `JoinError`
  of the spawned task, `.ok (.error e)` a transport/protocol failure of the
  prompt request itself, and `.ok (.ok r)` a completed `PromptResponse`
  with stop reason `r`. -/
structure Env where
  registryBuild : Except SacpError Unit
  cwd : Except Unit String
  newSession : Except SacpError SessionId
  received : List Json
  queued : List Json
  promptJoin : Except Unit (Except SacpError StopReason)
  replyOpen : Bool

/-- The externally visible actions `run` performs, in program order: the
session-creation request going out, `state.register_session`, the prompt
request going out (the spawned task's send happens after registration),
`state.unregister_session`, and a successfully delivered reply on the
request's `response_tx`. -/
inductive Action where
  | sendNewSession (req : NewSessionRequest) : Action
  | register (sid : SessionId) : Action
  | sendPrompt (req : PromptRequest) : Action
  | unregister (sid : SessionId) : Action
  | reply (msg : String) : Action
deriving DecidableEq, Repr

/-! ## The shared registry (`state::ResearchState`) -/

/-- Modelled from the spec: `state.rs` is not among the provided sources;
§4.2 gives the Active Session Registry the contract `register(handle)`,
`unregister(handle)`, `contains(handle)` on a set of handles.  `register`
adds the handle to the set. -/
def registerSession (st : List SessionId) (sid : SessionId) : List SessionId :=
  if sid ∈ st then st else sid :: st

/-- Modelled from the spec: §4.2's `unregister` removes the handle;
on an absent handle it is a no-op. -/
def unregisterSession (st : List SessionId) (sid : SessionId) : List SessionId :=
  st.filter (fun x => x ≠ sid)

/-- How one action of `run` transforms the shared registry. -/
def applyAction (st : List SessionId) : Action → List SessionId
  | .register sid => registerSession st sid
  | .unregister sid => unregisterSession st sid
  | _ => st

/-- The registry contents after `run`'s actions, starting from `init`. -/
def finalRegistry (init : List SessionId) (acts : List Action) : List SessionId :=
  acts.foldl applyAction init

/-- The replies actually delivered on the request's reply channel. -/
def sentReplies (acts : List Action) : List String :=
  acts.filterMap fun a =>
    match a with
    | .reply msg => some msg
    | _ => none

/-! ## The orchestrator (`research_agent.rs::run`) -/

/-- The sentinel built at lines 112–115 of `research_agent.rs` when no
responses were collected. -/
def noResponsesMessage (crate_name : String) : String :=
  "Research completed for crate '" ++ crate_name ++
    "' but no responses were returned."

/-- Lines 111–124 of `research_agent.rs`: the final response string.
Empty buffer: the sentinel naming `request.crate_name`; exactly one
response: `serde_json::to_string_pretty` of it; otherwise
`to_string_pretty` of `json!(\x7b "responses": responses \x7d)`. -/
def aggregate (crate_name : String) (responses : List Json) : String :=
  match responses with
  | [] => noResponsesMessage crate_name
  | [single] => toStringPretty single
  | _ => toStringPretty (.obj (.cons "responses" (.arr (JsonArr.ofList responses)) .nil))

/-- `research_agent.rs::run`, on the schedule fixed by `env`.  Returns the
`Result<(), sacp::Error>` together with the trace of externally visible
actions:

* a failure of `with_rmcp_server` (line 50's `?`) or of
  `std::env::current_dir()` (line 138, mapped to `internal_error`) returns
  before any request is sent;
* a failed session creation (line 60's `?`) returns with the registry never
  touched and no reply sent;
* on success the session is registered (line 65) and then the prompt is
  sent from the spawned task (lines 75–78);
* a `JoinError` of the prompt task is mapped to `internal_error`
  (line 94) and a prompt-request error is propagated as-is (line 95's `?`);
  both `?`s return from `run` before the `unregister_session` call at
  line 108, so no unregistration happens on these paths;
* on prompt completion the loop breaks with `responses = env.received`
  (the values the recv branch delivered, in order; `env.queued` is dropped
  — there is no drain of `response_rx` after the loop), the session is
  unregistered, the final response is aggregated, and the send on
  `response_tx` either delivers the reply or, if the caller dropped the
  receiver, fails and is mapped to `internal_error` by line 129's `?`. -/
def run (req : ResearchRequest) (env : Env) :
    Except SacpError Unit × List Action :=
  match env.registryBuild with
  | .error e => (.error e, [])
  | .ok _ =>
    match env.cwd with
    | .error _ => (.error .internalError, [])
    | .ok cwd =>
      let sessionReq : NewSessionRequest :=
        { cwd := cwd, mcpServers := ["rust-crate-sources"] }
      match env.newSession with
      | .error e => (.error e, [.sendNewSession sessionReq])
      | .ok sid =>
        let promptReq : PromptRequest :=
          { session_id := sid, prompt := [req.prompt] }
        let acts := [Action.sendNewSession sessionReq, Action.register sid,
          Action.sendPrompt promptReq]
        match env.promptJoin with
        | .error _ => (.error .internalError, acts)
        | .ok (.error e) => (.error e, acts)
        | .ok (.ok _stopReason) =>
          let finalResponse := aggregate req.crate_name env.received
          let acts2 := acts ++ [Action.unregister sid]
          if env.replyOpen then
            (.ok (), acts2 ++ [Action.reply finalResponse])
          else
            (.error .internalError, acts2)

/-! ## Sample values for witnesses and counterexamples -/

/-- A concrete research request (§8's "widgets" scenario). -/
def sampleReq : ResearchRequest :=
  { crate_name := "widgets", crate_version := none, prompt := "describe the API" }

/-- A schedule in which everything succeeds and no side-channel item is
delivered. -/
def okEnv : Env :=
  { registryBuild := .ok (), cwd := .ok "/work", newSession := .ok "sess-1",
    received := [], queued := [], promptJoin := .ok (.ok .endTurn),
    replyOpen := true }

/-- The all-success schedule with one collected item and an abnormal stop
reason. -/
def refusalEnv : Env :=
  { okEnv with received := [Json.str "f"], promptJoin := .ok (.ok .refusal) }

/-- The all-success schedule whose prompt request fails with a transport
error. -/
def promptFailEnv : Env :=
  { okEnv with promptJoin := .ok (.error (.other "transport error")) }

/-- The all-success schedule on which one side-channel item was delivered
into the collector channel but was still queued, unreceived, when the
prompt branch fired. -/
def queuedItemEnv : Env :=
  { okEnv with queued := [Json.str "finding"] }

/-- The all-success schedule on which the caller has dropped its end of the
reply channel. -/
def closedReplyEnv : Env :=
  { okEnv with replyOpen := false }

/-! ## Helper lemmas about the registry -/

/-- A handle is always a member of the registry right after registering it. -/
theorem mem_registerSession_self (st : List SessionId) (sid : SessionId) :
    sid ∈ registerSession st sid := by
  unfold registerSession
  split
  · assumption
  · exact List.mem_cons_self sid st

/-- A handle is never a member of the registry right after unregistering
it. -/
theorem not_mem_unregisterSession_self (st : List SessionId) (sid : SessionId) :
    sid ∉ unregisterSession st sid := by
  unfold unregisterSession
  intro h
  have := List.of_mem_filter h
  simp at this

/-! ## The claims -/

/-- C1 counterexample: on a schedule where session creation succeeded and
the prompt request then failed, `run` does return the error and sends no
reply, but the session handle is still a member of the registry after `run`
returns — it was never unregistered, refuting the claim's cleanup clause. -/
theorem C1_counterexample_no_cleanup_on_prompt_failure :
    (run sampleReq promptFailEnv).fst = .error (.other "transport error") ∧
    sentReplies (run sampleReq promptFailEnv).snd = [] ∧
    "sess-1" ∈ finalRegistry [] (run sampleReq promptFailEnv).snd := by
  refine ⟨rfl, rfl, ?_⟩
  decide

/-- C1 (amended): if the prompt request fails after session creation — a
`JoinError` of the spawned task or a transport/protocol error of the
request — `run` returns an error and no reply is sent, but the handle is
NOT removed: no unregister action occurs and the handle is still in the
registry when `run` returns (the two question-mark operators at lines 94
and 95 return before the `unregister_session` call at line 108, so cleanup
runs only on the prompt-completion path). -/
theorem C1_amended_prompt_failure_skips_cleanup (req : ResearchRequest) (env : Env)
    (c : String) (sid : SessionId)
    (hrb : env.registryBuild = .ok ()) (hcwd : env.cwd = .ok c)
    (hns : env.newSession = .ok sid)
    (hpj : ∀ r : StopReason, env.promptJoin ≠ .ok (.ok r)) :
    (∃ e, (run req env).fst = .error e) ∧
    sentReplies (run req env).snd = [] ∧
    Action.register sid ∈ (run req env).snd ∧
    (∀ sid2, Action.unregister sid2 ∉ (run req env).snd) ∧
    (∀ init, sid ∈ finalRegistry init (run req env).snd) := by
  rcases hpjv : env.promptJoin with u | er
  · refine ⟨⟨.internalError, by simp [run, hrb, hcwd, hns, hpjv]⟩, ?_, ?_, ?_, ?_⟩
    · simp [run, hrb, hcwd, hns, hpjv, sentReplies]
    · simp [run, hrb, hcwd, hns, hpjv]
    · intro sid2
      simp [run, hrb, hcwd, hns, hpjv]
    · intro init
      simp [run, hrb, hcwd, hns, hpjv, finalRegistry, applyAction]
      exact mem_registerSession_self init sid
  rcases er with e | r
  · refine ⟨⟨e, by simp [run, hrb, hcwd, hns, hpjv]⟩, ?_, ?_, ?_, ?_⟩
    · simp [run, hrb, hcwd, hns, hpjv, sentReplies]
    · simp [run, hrb, hcwd, hns, hpjv]
    · intro sid2
      simp [run, hrb, hcwd, hns, hpjv]
    · intro init
      simp [run, hrb, hcwd, hns, hpjv, finalRegistry, applyAction]
      exact mem_registerSession_self init sid
  · exact absurd hpjv (hpj r)

/-- C1 witness: the transport-failure schedule instantiating the amended
claim. -/
theorem C1_amended_prompt_failure_skips_cleanup_witness :
    (∃ e, (run sampleReq promptFailEnv).fst = .error e) ∧
    sentReplies (run sampleReq promptFailEnv).snd = [] ∧
    Action.register "sess-1" ∈ (run sampleReq promptFailEnv).snd ∧
    (∀ sid2, Action.unregister sid2 ∉ (run sampleReq promptFailEnv).snd) ∧
    (∀ init, "sess-1" ∈ finalRegistry init (run sampleReq promptFailEnv).snd) :=
  C1_amended_prompt_failure_skips_cleanup sampleReq promptFailEnv "/work" "sess-1"
    rfl rfl rfl (fun r h => by simp [promptFailEnv, okEnv] at h)

/-- C2 counterexample: one item was delivered into the collector channel
but still queued when the prompt resolved; the reply is the empty-buffer
sentinel, not the aggregate of the delivered item — the queued item was
lost, refuting the claimed final drain pass. -/
theorem C2_counterexample_queued_item_lost :
    sentReplies (run sampleReq queuedItemEnv).snd = [noResponsesMessage "widgets"] ∧
    noResponsesMessage "widgets" ≠
      aggregate "widgets" (queuedItemEnv.received ++ queuedItemEnv.queued) := by
  refine ⟨rfl, ?_⟩
  decide

/-- C2 (amended): there is no drain pass after the select loop — items
still queued in the collector channel when the prompt branch fires are
lost: the reply aggregates exactly the items the loop received before
completion, and the queued items have no influence on `run`'s outcome,
trace or reply. -/
theorem C2_amended_no_final_drain (req : ResearchRequest) (env : Env)
    (c : String) (sid : SessionId) (r : StopReason)
    (hrb : env.registryBuild = .ok ()) (hcwd : env.cwd = .ok c)
    (hns : env.newSession = .ok sid) (hpj : env.promptJoin = .ok (.ok r))
    (hro : env.replyOpen = true) :
    sentReplies (run req env).snd = [aggregate req.crate_name env.received] ∧
    (∀ q : List Json, run req { env with queued := q } = run req env) := by
  constructor
  · simp [run, hrb, hcwd, hns, hpj, hro, sentReplies]
  · intro q
    simp [run, hrb, hcwd, hns, hpj, hro]

/-- C2 witness: the queued-item schedule instantiating the amended claim. -/
theorem C2_amended_no_final_drain_witness :
    sentReplies (run sampleReq queuedItemEnv).snd = [aggregate "widgets" []] ∧
    (∀ q : List Json,
      run sampleReq { queuedItemEnv with queued := q } = run sampleReq queuedItemEnv) :=
  C2_amended_no_final_drain sampleReq queuedItemEnv "/work" "sess-1" .endTurn
    rfl rfl rfl rfl rfl

/-- C3: for every subject and ordered item sequence, the aggregated reply
follows the count-based rule: zero items give the sentinel naming the
subject, one item gives its pretty-printed serialization alone, two or more
items give all of them pretty-printed under the single "responses" wrapping
field, in arrival order. -/
theorem C3_aggregate_count_rule (subject : String) (items : List Json) :
    (items = [] → aggregate subject items = noResponsesMessage subject) ∧
    (∀ x, items = [x] → aggregate subject items = toStringPretty x) ∧
    (2 ≤ items.length →
      aggregate subject items =
        toStringPretty (.obj (.cons "responses" (.arr (JsonArr.ofList items)) .nil))) := by
  refine ⟨fun h => by subst h; rfl, fun x h => by subst h; rfl, fun h => ?_⟩
  match items with
  | [] => simp at h
  | [x] => simp at h
  | a :: b :: rest => rfl

/-- C3 witness: the rule evaluated at zero, one and three concrete items. -/
theorem C3_aggregate_count_rule_witness :
    aggregate "serde" [] = noResponsesMessage "serde" ∧
    aggregate "serde" [Json.str "a"] = toStringPretty (Json.str "a") ∧
    aggregate "serde" [Json.str "a", Json.str "b", Json.str "c"] =
      toStringPretty (.obj (.cons "responses"
        (.arr (JsonArr.ofList [Json.str "a", Json.str "b", Json.str "c"])) .nil)) :=
  ⟨(C3_aggregate_count_rule "serde" []).1 rfl,
   (C3_aggregate_count_rule "serde" [Json.str "a"]).2.1 (Json.str "a") rfl,
   (C3_aggregate_count_rule "serde" [Json.str "a", Json.str "b", Json.str "c"]).2.2 (by decide)⟩

/-- C4: if the session-creation request fails, `run` returns that error,
sends no reply, performs no registry action at all (no handle is ever
registered) and leaves any initial registry contents unchanged. -/
theorem C4_session_creation_failure (req : ResearchRequest) (env : Env)
    (c : String) (e : SacpError)
    (hrb : env.registryBuild = .ok ()) (hcwd : env.cwd = .ok c)
    (hns : env.newSession = .error e) :
    (run req env).fst = .error e ∧
    sentReplies (run req env).snd = [] ∧
    (∀ sid, Action.register sid ∉ (run req env).snd) ∧
    (∀ init, finalRegistry init (run req env).snd = init) := by
  simp [run, hrb, hcwd, hns, sentReplies, finalRegistry, applyAction]

/-- C4 witness: a concrete rejected session creation. -/
theorem C4_session_creation_failure_witness :
    (run sampleReq { okEnv with newSession := .error (.other "rejected") }).fst
        = .error (.other "rejected") ∧
    sentReplies (run sampleReq { okEnv with newSession := .error (.other "rejected") }).snd = [] ∧
    (∀ sid, Action.register sid ∉
      (run sampleReq { okEnv with newSession := .error (.other "rejected") }).snd) ∧
    (∀ init, finalRegistry init
      (run sampleReq { okEnv with newSession := .error (.other "rejected") }).snd = init) :=
  C4_session_creation_failure sampleReq _ "/work" (.other "rejected") rfl rfl rfl

/-- C5: whenever session creation succeeds, the action trace starts with the
session-creation request, then the registration of the returned handle, and
only then the prompt request for that session: registration strictly
precedes any prompt traffic. -/
theorem C5_register_before_prompt (req : ResearchRequest) (env : Env)
    (c : String) (sid : SessionId)
    (hrb : env.registryBuild = .ok ()) (hcwd : env.cwd = .ok c)
    (hns : env.newSession = .ok sid) :
    ∃ tail, (run req env).snd =
      Action.sendNewSession { cwd := c, mcpServers := ["rust-crate-sources"] } ::
      Action.register sid ::
      Action.sendPrompt { session_id := sid, prompt := [req.prompt] } :: tail := by
  rcases hpj : env.promptJoin with u | er
  · exact ⟨[], by simp [run, hrb, hcwd, hns, hpj]⟩
  rcases er with e | r
  · exact ⟨[], by simp [run, hrb, hcwd, hns, hpj]⟩
  rcases hro : env.replyOpen
  · exact ⟨[Action.unregister sid], by simp [run, hrb, hcwd, hns, hpj, hro]⟩
  · exact ⟨[Action.unregister sid,
      Action.reply (aggregate req.crate_name env.received)],
      by simp [run, hrb, hcwd, hns, hpj, hro]⟩

/-- C5 witness: the trace of the all-success schedule. -/
theorem C5_register_before_prompt_witness :
    ∃ tail, (run sampleReq okEnv).snd =
      Action.sendNewSession { cwd := "/work", mcpServers := ["rust-crate-sources"] } ::
      Action.register "sess-1" ::
      Action.sendPrompt { session_id := "sess-1", prompt := ["describe the API"] } :: tail :=
  C5_register_before_prompt sampleReq okEnv "/work" "sess-1" rfl rfl rfl

/-- C6 counterexample: with the reply channel abandoned, `run` returns
`internal_error` to its invoker — the send failure is escalated through the
question-mark operator at line 129, not merely logged, refuting the claim
that the orchestration is still considered successful. -/
theorem C6_counterexample_reply_failure_escalated :
    (run sampleReq closedReplyEnv).fst = .error .internalError := rfl

/-- C6 (amended): if the caller has abandoned the reply channel so that the
final send fails, `run` returns `internal_error` to its invoker (the
failure is escalated, not merely logged); no reply is delivered, though the
session was already unregistered before the send was attempted. -/
theorem C6_amended_reply_failure_escalated (req : ResearchRequest) (env : Env)
    (c : String) (sid : SessionId) (r : StopReason)
    (hrb : env.registryBuild = .ok ()) (hcwd : env.cwd = .ok c)
    (hns : env.newSession = .ok sid) (hpj : env.promptJoin = .ok (.ok r))
    (hro : env.replyOpen = false) :
    (run req env).fst = .error .internalError ∧
    sentReplies (run req env).snd = [] ∧
    Action.unregister sid ∈ (run req env).snd ∧
    (∀ init, sid ∉ finalRegistry init (run req env).snd) := by
  refine ⟨?_, ?_, ?_, ?_⟩
  · simp [run, hrb, hcwd, hns, hpj, hro]
  · simp [run, hrb, hcwd, hns, hpj, hro, sentReplies]
  · simp [run, hrb, hcwd, hns, hpj, hro]
  · intro init
    simp [run, hrb, hcwd, hns, hpj, hro, finalRegistry, applyAction]
    exact not_mem_unregisterSession_self (registerSession init sid) sid

/-- C6 witness: the closed-reply-channel schedule instantiating the amended
claim. -/
theorem C6_amended_reply_failure_escalated_witness :
    (run sampleReq closedReplyEnv).fst = .error .internalError ∧
    sentReplies (run sampleReq closedReplyEnv).snd = [] ∧
    Action.unregister "sess-1" ∈ (run sampleReq closedReplyEnv).snd ∧
    (∀ init, "sess-1" ∉ finalRegistry init (run sampleReq closedReplyEnv).snd) :=
  C6_amended_reply_failure_escalated sampleReq closedReplyEnv "/work" "sess-1" .endTurn
    rfl rfl rfl rfl rfl

/-- C7: when the prompt completes with any stop reason whatsoever, `run`
accepts it as the end of orchestration — it succeeds, aggregates the
collected buffer (possibly empty) and sends it as the reply — and the stop
reason's value has no influence on the result at all. -/
theorem C7_any_stop_reason_accepted (req : ResearchRequest) (env : Env)
    (c : String) (sid : SessionId) (r : StopReason)
    (hrb : env.registryBuild = .ok ()) (hcwd : env.cwd = .ok c)
    (hns : env.newSession = .ok sid) (hpj : env.promptJoin = .ok (.ok r))
    (hro : env.replyOpen = true) :
    (run req env).fst = .ok () ∧
    sentReplies (run req env).snd = [aggregate req.crate_name env.received] ∧
    (∀ r2 : StopReason, run req { env with promptJoin := .ok (.ok r2) } = run req env) := by
  refine ⟨?_, ?_, ?_⟩
  · simp [run, hrb, hcwd, hns, hpj, hro]
  · simp [run, hrb, hcwd, hns, hpj, hro, sentReplies]
  · intro r2
    simp [run, hrb, hcwd, hns, hpj, hro]

/-- C7 witness: an abnormal stop reason (`refusal`) with one collected item
still yields a successful, aggregated reply, identical to every other stop
reason's run. -/
theorem C7_any_stop_reason_accepted_witness :
    (run sampleReq refusalEnv).fst = .ok () ∧
    sentReplies (run sampleReq refusalEnv).snd = [aggregate "widgets" [Json.str "f"]] ∧
    (∀ r2 : StopReason,
      run sampleReq { refusalEnv with promptJoin := .ok (.ok r2) } = run sampleReq refusalEnv) :=
  C7_any_stop_reason_accepted sampleReq refusalEnv "/work" "sess-1" .refusal rfl rfl rfl rfl rfl

/-- C8: on every schedule, if `run` returns success then exactly one reply
was delivered — the aggregate of the collected buffer — and on no schedule
at all is more than one reply delivered. -/
theorem C8_exactly_one_reply (req : ResearchRequest) (env : Env) :
    ((run req env).fst = .ok () →
      sentReplies (run req env).snd = [aggregate req.crate_name env.received]) ∧
    (sentReplies (run req env).snd).length ≤ 1 := by
  rcases env with ⟨rb, cw, ns, recv, q, pj, ro⟩
  rcases rb with e | u
  · simp [run, sentReplies]
  rcases cw with u2 | c
  · simp [run, sentReplies]
  rcases ns with e2 | sid
  · simp [run, sentReplies]
  rcases pj with u3 | pr
  · simp [run, sentReplies]
  rcases pr with e3 | r
  · simp [run, sentReplies]
  cases ro <;> simp [run, sentReplies]

/-- C8 witness: the all-success schedule delivers exactly the aggregated
sentinel, once. -/
theorem C8_exactly_one_reply_witness :
    ((run sampleReq okEnv).fst = .ok () →
      sentReplies (run sampleReq okEnv).snd = [aggregate "widgets" []]) ∧
    (sentReplies (run sampleReq okEnv).snd).length ≤ 1 :=
  C8_exactly_one_reply sampleReq okEnv

/-- C9: two requests that differ only in `crate_version` produce identical
runs: same outcome and the same action trace (same session-creation
request, same prompt request, same final reply). -/
theorem C9_crate_version_noninterference (req : ResearchRequest)
    (v1 v2 : Option String) (env : Env) :
    run { req with crate_version := v1 } env =
      run { req with crate_version := v2 } env := rfl

/-- C10: when the prompt completes with an empty collected buffer and the
caller still listens, the delivered reply is exactly the sentinel string
with the crate name interpolated between the single quotes. -/
theorem C10_zero_items_reply (req : ResearchRequest) (env : Env)
    (c : String) (sid : SessionId) (r : StopReason)
    (hrb : env.registryBuild = .ok ()) (hcwd : env.cwd = .ok c)
    (hns : env.newSession = .ok sid) (hpj : env.promptJoin = .ok (.ok r))
    (hrecv : env.received = []) (hro : env.replyOpen = true) :
    sentReplies (run req env).snd =
      ["Research completed for crate '" ++ req.crate_name ++
        "' but no responses were returned."] := by
  simp [run, hrb, hcwd, hns, hpj, hrecv, hro, sentReplies, aggregate,
    noResponsesMessage]

/-- C10 witness: the "widgets" request with zero items yields the exact
sentinel sentence. -/
theorem C10_zero_items_reply_witness :
    sentReplies (run sampleReq okEnv).snd =
      ["Research completed for crate '" ++ "widgets" ++
        "' but no responses were returned."] :=
  C10_zero_items_reply sampleReq okEnv "/work" "sess-1" .endTurn rfl rfl rfl rfl rfl rfl

end Symposium
